import Mathlib

/-!
# Verification of the `webrtc_unreliable` per-client state machine

A shallow embedding of
`src/src/server/socket/webrtc_server_socket/webrtc_unreliable/client.rs`
(the per-client WebRTC data-channel engine of naia-socket).

Modelling conventions:

* Machine integers (`u16`, `u32`) are `Nat`; wrap-around is explicit
  (`% 2^32` where the source uses `wrapping_add`).  `u32` subtraction in
  `max_tsn` occurs only under a `>` guard, so `Nat` subtraction is exact.
* `Instant` timestamps are `Nat`; `Instant::now()` is an explicit `now`
  parameter; `elapsed` is truncated subtraction (a `Duration` is never
  negative, matching `Nat` subtraction).
* Byte buffers are `List Nat`.  The buffer pool is an external collaborator
  (an allocator) and is dropped from the model.
* The OpenSSL TLS library is an external collaborator.  Its visible
  behaviour at each call site (handshake outcome, the plaintext SCTP packets
  each `ssl_read` yields, the result of `ssl_shutdown`) is supplied as
  explicit oracle arguments, universally quantified in the theorems.
  `ssl_write` to the memory-backed `ClientSslPackets` shim cannot fail
  (its `Write` impl always returns `Ok(buf.len())`), so a successful
  serialization always reaches the shim.
* The field `sent_sctp` is an observation log: the sequence of plaintext
  SCTP packets handed to `ssl_write` by `send_sctp_packet`, in call order.
  The ciphertext datagrams the TLS library then pushes onto `outgoing_udp`
  are not modelled (encryption is external); `outgoing_udp` contents are
  universally quantified where theorems speak about draining it.
* `rand::thread_rng` draws (local verification tag and initial local TSN in
  the INIT arm) are oracle parameters `rngTag`, `rngTsn`.
-/

/-! ## Constants (client.rs lines 30-35, 583-593) -/

/-- `HEARTBEAT_INTERVAL = Duration::from_secs(3)`, modelled in milliseconds. -/
def HEARTBEAT_INTERVAL : Nat := 3000

def MAX_UDP_PAYLOAD_SIZE : Nat := 65507
def MAX_DTLS_MESSAGE_SIZE : Nat := 16384
def MAX_SCTP_PACKET_SIZE : Nat := MAX_DTLS_MESSAGE_SIZE

/-- `SCTP_COOKIE = b"WEBRTC-UNRELIABLE-COOKIE"` as byte values. -/
def SCTP_COOKIE : List Nat :=
  [87, 69, 66, 82, 84, 67, 45, 85, 78, 82, 69, 76, 73, 65, 66, 76, 69, 45,
   67, 79, 79, 75, 73, 69]

/-- `SCTP_HEARTBEAT = b"WEBRTC-UNRELIABLE-HEARTBEAT"` as byte values. -/
def SCTP_HEARTBEAT : List Nat :=
  [87, 69, 66, 82, 84, 67, 45, 85, 78, 82, 69, 76, 73, 65, 66, 76, 69, 45,
   72, 69, 65, 82, 84, 66, 69, 65, 84]

def SCTP_MAX_CHUNKS : Nat := 16
def SCTP_BUFFER_SIZE : Nat := 0x40000

def DATA_CHANNEL_PROTO_CONTROL : Nat := 50
def DATA_CHANNEL_PROTO_STRING : Nat := 51
def DATA_CHANNEL_PROTO_BINARY : Nat := 53

def DATA_CHANNEL_MESSAGE_ACK : Nat := 2
def DATA_CHANNEL_MESSAGE_OPEN : Nat := 3

/-- Modelled from the spec: `SCTP_FLAG_COMPLETE_UNRELIABLE` is declared in the
`super::sctp` codec module, which is not under `src/`; per spec §6 it is the
U (unordered, 0x4) + B (begin, 0x2) + E (end, 0x1) flag combination. -/
def SCTP_FLAG_COMPLETE_UNRELIABLE : Nat := 0x7

/-! ## SCTP data model (`super::sctp`, as used by client.rs) -/

/-- The SCTP chunk type of the `super::sctp` codec module, restricted to the
constructors and fields `client.rs` uses. -/
inductive SctpChunk where
  | Init (initiate_tag : Nat) (window_credit : Nat)
      (num_outbound_streams : Nat) (num_inbound_streams : Nat)
      (initial_tsn : Nat)
  | InitAck (initiate_tag : Nat) (window_credit : Nat)
      (num_outbound_streams : Nat) (num_inbound_streams : Nat)
      (initial_tsn : Nat) (state_cookie : List Nat)
  | CookieEcho (state_cookie : List Nat)
  | CookieAck
  | Data (chunk_flags : Nat) (tsn : Nat) (stream_id : Nat)
      (stream_seq : Nat) (proto_id : Nat) (user_data : List Nat)
  | SAck (cumulative_tsn_ack : Nat) (adv_recv_window : Nat)
      (num_gap_ack_blocks : Nat) (num_dup_tsn : Nat)
  | Heartbeat (heartbeat_info : Option (List Nat))
  | HeartbeatAck (heartbeat_info : Option (List Nat))
  | Shutdown (cumulative_tsn_ack : Nat)
  | ShutdownAck
  | Abort
  | ForwardTsn (new_cumulative_tsn : Nat)
  deriving DecidableEq

/-- An SCTP packet: common header fields plus the chunk sequence. -/
structure SctpPacket where
  source_port : Nat
  dest_port : Nat
  verification_tag : Nat
  chunks : List SctpChunk
  deriving DecidableEq

/-- Round byte count up to a 4-byte boundary (chunk bodies are padded). -/
def pad4 (n : Nat) : Nat := 4 * ((n + 3) / 4)

/-- Modelled from the spec: serialized size in bytes of one chunk
(header 4 bytes + body, padded to 4), per the §6 wire format; the
serializer `write_sctp_packet` lives in `super::sctp`, not under `src/`. -/
def sctpChunkSerializedSize : SctpChunk → Nat
  | SctpChunk.Init _ _ _ _ _ => 20
  | SctpChunk.InitAck _ _ _ _ _ cookie => 24 + pad4 cookie.length
  | SctpChunk.CookieEcho cookie => 4 + pad4 cookie.length
  | SctpChunk.CookieAck => 4
  | SctpChunk.Data _ _ _ _ _ user_data => 16 + pad4 user_data.length
  | SctpChunk.SAck _ _ gaps dups => 16 + 4 * gaps + 4 * dups
  | SctpChunk.Heartbeat none => 4
  | SctpChunk.Heartbeat (some info) => 8 + pad4 info.length
  | SctpChunk.HeartbeatAck none => 4
  | SctpChunk.HeartbeatAck (some info) => 8 + pad4 info.length
  | SctpChunk.Shutdown _ => 8
  | SctpChunk.ShutdownAck => 4
  | SctpChunk.Abort => 4
  | SctpChunk.ForwardTsn _ => 8

/-- Modelled from the spec: serialized packet size = 12-byte common header
plus the chunks (§6 wire format). -/
def sctpPacketSerializedSize (p : SctpPacket) : Nat :=
  12 + (p.chunks.map sctpChunkSerializedSize).sum

/-! ## Client data model (client.rs lines 37-93, 539-600) -/

inductive ClientError where
  | TlsError
  | OpenSslError
  | NotConnected
  | NotEstablished
  | IncompletePacketRead
  | IncompletePacketWrite
  deriving DecidableEq

inductive MessageType where
  | Text
  | Binary
  deriving DecidableEq

inductive SctpState where
  | Shutdown
  | InitAck
  | Established
  deriving DecidableEq

/-- The `ClientSslPackets` DTLS shim state: two FIFO queues of complete UDP
datagrams (the `buffer_pool` handle, an external allocator, is dropped). -/
structure ClientSslPackets where
  incoming_udp : List (List Nat)
  outgoing_udp : List (List Nat)
  deriving DecidableEq

/-- `ClientSslState`: the mid-handshake / established / shutting-down TLS
contexts are external library objects; the model keeps only their embedded
`ClientSslPackets` shim state. -/
inductive ClientSslState where
  | Handshake (pkts : ClientSslPackets)
  | Established (pkts : ClientSslPackets)
  | ShuttingDown (pkts : ClientSslPackets)
  | Shutdown
  deriving DecidableEq

/-- The per-client state (`struct Client`), plus the `sent_sctp` observation
log of plaintext SCTP packets handed to `ssl_write`, in call order.
`remote_addr` (used only for logging and owner-side dispatch) is dropped. -/
structure Client where
  ssl_state : ClientSslState
  last_activity : Nat
  last_sent : Nat
  received_messages : List (MessageType × List Nat)
  sctp_state : SctpState
  sctp_local_port : Nat
  sctp_remote_port : Nat
  sctp_local_verification_tag : Nat
  sctp_remote_verification_tag : Nat
  sctp_local_tsn : Nat
  sctp_remote_tsn : Nat
  sent_sctp : List SctpPacket
  deriving DecidableEq

/-! ## Pure helpers -/

/-- `max_tsn` (client.rs lines 620-634): RFC 1982 serial-number maximum in
32 bits. -/
def max_tsn (a b : Nat) : Nat :=
  if a > b then
    if a - b < 2 ^ 31 then a else b
  else
    if b - a < 2 ^ 31 then b else a

/-- `a` precedes or equals `b` in RFC 1982 serial order: taking the serial
maximum with `b` does not fall back to `a`. -/
def serialLe (a b : Nat) : Prop := max_tsn a b = b

instance (a b : Nat) : Decidable (serialLe a b) := by
  unfold serialLe; infer_instance

/-- `is_established` (client.rs lines 129-134). -/
def isEstablished (c : Client) : Bool :=
  match c.ssl_state, c.sctp_state with
  | ClientSslState.Established _, SctpState.Established => true
  | _, _ => false

/-- Whether the DTLS phase is `Established`. -/
def sslIsEstablished (c : Client) : Bool :=
  match c.ssl_state with
  | ClientSslState.Established _ => true
  | _ => false

/-- Whether the DTLS phase is `ShuttingDown` or `Shutdown` (the client has
started or finished DTLS close and can never become established again). -/
def sslClosing (c : Client) : Bool :=
  match c.ssl_state with
  | ClientSslState.ShuttingDown _ => true
  | ClientSslState.Shutdown => true
  | _ => false

/-- `is_shutdown` (client.rs lines 170-175). -/
def isShutdown (c : Client) : Bool :=
  match c.ssl_state with
  | ClientSslState.Shutdown => true
  | _ => false

/-- Every reply packet in client.rs uses this header triple:
`source_port = sctp_local_port`, `dest_port = sctp_remote_port`,
`verification_tag = sctp_remote_verification_tag`. -/
def replyPacket (c : Client) (chunks : List SctpChunk) : SctpPacket :=
  { source_port := c.sctp_local_port
    dest_port := c.sctp_remote_port
    verification_tag := c.sctp_remote_verification_tag
    chunks := chunks }

/-- `send_sctp_packet` (client.rs lines 636-659): serialize the packet
(`Err(SctpWriteError::BufferSize)` becomes `IncompletePacketWrite` when it
does not fit `MAX_SCTP_PACKET_SIZE`) and hand it to `ssl_write`, which on
the memory-backed shim always succeeds.  On success the packet is appended
to the `sent_sctp` log. -/
def trySend (c : Client) (p : SctpPacket) : Except ClientError Client :=
  if sctpPacketSerializedSize p ≤ MAX_SCTP_PACKET_SIZE then
    Except.ok { c with sent_sctp := c.sent_sctp ++ [p] }
  else
    Except.error ClientError.IncompletePacketWrite

/-! ## TLS library oracle -/

/-- Result of one `ssl_stream.shutdown()` call: `Ok(Sent)`, `Ok(Received)`,
`Err` with code `WANT_READ`, or any other `Err`. -/
inductive TlsShutdownOutcome where
  | sent
  | received
  | wantRead
  | tlsErr
  deriving DecidableEq

/-- Result of one `mid_handshake.handshake()` call; the payloads are the
shim queue state after the TLS library has consumed inbound handshake bytes
and produced outbound records. -/
inductive HandshakeOutcome where
  | ok (pkts : ClientSslPackets)
  | setupFailure
  | failure (pkts : ClientSslPackets)
  | wouldBlock (pkts : ClientSslPackets)
  deriving DecidableEq

/-- One iteration of the `ssl_read` loop in `receive_incoming_packet`:
either a decrypted record that parses as an SCTP packet (`read_sctp_packet`
success, with the `thread_rng` draws used if it contains an INIT), a record
that fails SCTP parsing (logged and dropped), `WANT_READ` (loop break),
`ZERO_RETURN` (close notify), or a fatal TLS error. -/
inductive ReadEvent where
  | pkt (p : SctpPacket) (rngTag rngTsn : Nat)
  | parseErr
  | wantRead
  | zeroReturn
  | tlsErr
  deriving DecidableEq

/-! ## Operations -/

/-- `Client::new` (client.rs lines 96-126): fresh handshake state, zeroed
SCTP fields, timestamps set to now. -/
def newClient (now : Nat) : Client :=
  { ssl_state := ClientSslState.Handshake { incoming_udp := [], outgoing_udp := [] }
    last_activity := now
    last_sent := now
    received_messages := []
    sctp_state := SctpState.Shutdown
    sctp_local_port := 0
    sctp_remote_port := 0
    sctp_local_verification_tag := 0
    sctp_remote_verification_tag := 0
    sctp_local_tsn := 0
    sctp_remote_tsn := 0
    sent_sctp := [] }

/-- `Client::start_shutdown` (client.rs lines 142-167).  `mem::replace`
leaves `ClientSslState::Shutdown` behind, so early error returns end in the
`Shutdown` phase.  From `Established`: if SCTP is not shut down, send a
one-sided ABORT, update `last_sent`, mark SCTP `Shutdown`; then call
`ssl_stream.shutdown()` (outcome `o`).  Any non-`Established` phase is left
unchanged (`Ok(())`). -/
def startShutdown (c : Client) (now : Nat) (o : TlsShutdownOutcome) :
    Client × Option ClientError :=
  match c.ssl_state with
  | ClientSslState.Established pkts =>
    let step : Except ClientError Client :=
      if c.sctp_state ≠ SctpState.Shutdown then
        match trySend c (replyPacket c [SctpChunk.Abort]) with
        | Except.error e => Except.error e
        | Except.ok ca =>
          Except.ok { ca with last_sent := now, sctp_state := SctpState.Shutdown }
      else
        Except.ok c
    match step with
    | Except.error e => ({ c with ssl_state := ClientSslState.Shutdown }, some e)
    | Except.ok cb =>
      match o with
      | TlsShutdownOutcome.sent =>
        ({ cb with ssl_state := ClientSslState.ShuttingDown pkts }, none)
      | TlsShutdownOutcome.received =>
        ({ cb with ssl_state := ClientSslState.Shutdown }, none)
      | TlsShutdownOutcome.wantRead =>
        ({ cb with ssl_state := ClientSslState.Shutdown }, some ClientError.TlsError)
      | TlsShutdownOutcome.tlsErr =>
        ({ cb with ssl_state := ClientSslState.Shutdown }, some ClientError.TlsError)
  | _ => (c, none)

/-- `Client::generate_periodic` (client.rs lines 178-202): when the last
outbound packet is more than `HEARTBEAT_INTERVAL` old and both DTLS and
SCTP are `Established`, send one HEARTBEAT carrying `SCTP_HEARTBEAT` and
update `last_sent`; otherwise do nothing. -/
def generatePeriodic (c : Client) (now : Nat) : Client × Option ClientError :=
  if HEARTBEAT_INTERVAL < now - c.last_sent then
    match c.ssl_state with
    | ClientSslState.Established _ =>
      if c.sctp_state = SctpState.Established then
        match trySend c (replyPacket c [SctpChunk.Heartbeat (some SCTP_HEARTBEAT)]) with
        | Except.error e => (c, some e)
        | Except.ok c1 => ({ c1 with last_sent := now }, none)
      else
        (c, none)
    | _ => (c, none)
  else
    (c, none)

/-- `Client::take_outgoing_packets` (client.rs lines 285-297): drain the
shim's outbound datagram queue (empty when `Shutdown`). -/
def takeOutgoingPackets (c : Client) : List (List Nat) × Client :=
  match c.ssl_state with
  | ClientSslState.Handshake pkts =>
    (pkts.outgoing_udp,
      { c with ssl_state := ClientSslState.Handshake { pkts with outgoing_udp := [] } })
  | ClientSslState.Established pkts =>
    (pkts.outgoing_udp,
      { c with ssl_state := ClientSslState.Established { pkts with outgoing_udp := [] } })
  | ClientSslState.ShuttingDown pkts =>
    (pkts.outgoing_udp,
      { c with ssl_state := ClientSslState.ShuttingDown { pkts with outgoing_udp := [] } })
  | ClientSslState.Shutdown => ([], c)

/-- `Client::send_message` (client.rs lines 299-340). -/
def sendMessage (c : Client) (message_type : MessageType) (message : List Nat) :
    Client × Option ClientError :=
  match c.ssl_state with
  | ClientSslState.Established _ =>
    if c.sctp_state ≠ SctpState.Established then
      (c, some ClientError.NotEstablished)
    else
      let proto_id :=
        if message_type = MessageType.Text then DATA_CHANNEL_PROTO_STRING
        else DATA_CHANNEL_PROTO_BINARY
      match trySend c (replyPacket c
          [SctpChunk.Data SCTP_FLAG_COMPLETE_UNRELIABLE c.sctp_local_tsn 0 0
            proto_id message]) with
      | Except.error e => (c, some e)
      | Except.ok c1 =>
        ({ c1 with sctp_local_tsn := (c1.sctp_local_tsn + 1) % 2 ^ 32 }, none)
  | _ => (c, some ClientError.NotConnected)

/-- `Client::receive_messages` (client.rs lines 342-346): drain the pending
received application messages. -/
def receiveMessages (c : Client) : List (MessageType × List Nat) × Client :=
  (c.received_messages, { c with received_messages := [] })

/-- Outcome of handling one chunk inside `receive_sctp_packet`'s `for`
loop: continue with the next chunk, or return from the whole function. -/
inductive ChunkOutcome where
  | cont (c : Client)
  | done (c : Client) (e : Option ClientError)
  deriving DecidableEq

/-- The client carried by a `ChunkOutcome`. -/
def ChunkOutcome.client : ChunkOutcome → Client
  | ChunkOutcome.cont c => c
  | ChunkOutcome.done c _ => c

/-- One arm of the `match` in `Client::receive_sctp_packet`
(client.rs lines 348-536).  `pkt` is the enclosing packet (its ports are
read by the INIT arm); `rngTag`/`rngTsn` are the `thread_rng` draws;
`sd` is the `ssl_stream.shutdown()` outcome should `start_shutdown` run.
The source function panics unless the DTLS phase is `Established`; its only
caller guarantees that, and in the unestablished case this model returns
the state unchanged. -/
def processChunk (pkt : SctpPacket) (now rngTag rngTsn : Nat)
    (sd : TlsShutdownOutcome) (c : Client) : SctpChunk → ChunkOutcome :=
  fun ch =>
    match c.ssl_state with
    | ClientSslState.Established _ =>
      match ch with
      | SctpChunk.Init initiate_tag _wc nos nis initial_tsn =>
        let c1 := { c with
          sctp_local_port := pkt.dest_port
          sctp_remote_port := pkt.source_port
          sctp_local_verification_tag := rngTag
          sctp_remote_verification_tag := initiate_tag
          sctp_local_tsn := rngTsn
          sctp_remote_tsn := initial_tsn }
        match trySend c1 (replyPacket c1
            [SctpChunk.InitAck c1.sctp_local_verification_tag SCTP_BUFFER_SIZE
              nos nis c1.sctp_local_tsn SCTP_COOKIE]) with
        | Except.error e => ChunkOutcome.done c1 (some e)
        | Except.ok c2 =>
          ChunkOutcome.cont { c2 with
            sctp_state := SctpState.InitAck
            last_activity := now
            last_sent := now }
      | SctpChunk.CookieEcho state_cookie =>
        if state_cookie = SCTP_COOKIE ∧ c.sctp_state ≠ SctpState.Shutdown then
          match trySend c (replyPacket c [SctpChunk.CookieAck]) with
          | Except.error e => ChunkOutcome.done c (some e)
          | Except.ok c1 =>
            let c2 := { c1 with last_sent := now }
            if c2.sctp_state = SctpState.InitAck then
              ChunkOutcome.cont { c2 with
                sctp_state := SctpState.Established
                last_activity := now }
            else
              ChunkOutcome.cont c2
        else
          ChunkOutcome.cont c
      | SctpChunk.Data _flags tsn stream_id _sseq proto_id user_data =>
        let c1 := { c with sctp_remote_tsn := max_tsn c.sctp_remote_tsn tsn }
        let step : Except ClientError Client :=
          if proto_id = DATA_CHANNEL_PROTO_CONTROL then
            match user_data with
            | [] => Except.ok c1
            | b :: _ =>
              if b = DATA_CHANNEL_MESSAGE_OPEN then
                match trySend c1 (replyPacket c1
                    [SctpChunk.Data SCTP_FLAG_COMPLETE_UNRELIABLE
                      c1.sctp_local_tsn stream_id 0 DATA_CHANNEL_PROTO_CONTROL
                      [DATA_CHANNEL_MESSAGE_ACK]]) with
                | Except.error e => Except.error e
                | Except.ok c2 =>
                  Except.ok { c2 with
                    sctp_local_tsn := (c2.sctp_local_tsn + 1) % 2 ^ 32 }
              else
                Except.ok c1
          else if proto_id = DATA_CHANNEL_PROTO_STRING then
            Except.ok { c1 with
              received_messages :=
                c1.received_messages ++ [(MessageType.Text, user_data)] }
          else if proto_id = DATA_CHANNEL_PROTO_BINARY then
            Except.ok { c1 with
              received_messages :=
                c1.received_messages ++ [(MessageType.Binary, user_data)] }
          else
            Except.ok c1
        match step with
        | Except.error e => ChunkOutcome.done c1 (some e)
        | Except.ok c2 =>
          match trySend c2 (replyPacket c2
              [SctpChunk.SAck c2.sctp_remote_tsn SCTP_BUFFER_SIZE 0 0]) with
          | Except.error e => ChunkOutcome.done c2 (some e)
          | Except.ok c3 =>
            ChunkOutcome.cont { c3 with last_activity := now, last_sent := now }
      | SctpChunk.Heartbeat heartbeat_info =>
        match trySend c (replyPacket c [SctpChunk.HeartbeatAck heartbeat_info]) with
        | Except.error e => ChunkOutcome.done c (some e)
        | Except.ok c1 =>
          ChunkOutcome.cont { c1 with last_activity := now, last_sent := now }
      | SctpChunk.HeartbeatAck _ =>
        ChunkOutcome.cont { c with last_activity := now }
      | SctpChunk.SAck _cum _win num_gap_ack_blocks _dups =>
        if 0 < num_gap_ack_blocks then
          match trySend c (replyPacket c [SctpChunk.ForwardTsn c.sctp_local_tsn]) with
          | Except.error e => ChunkOutcome.done c (some e)
          | Except.ok c1 =>
            ChunkOutcome.cont { c1 with last_sent := now, last_activity := now }
        else
          ChunkOutcome.cont { c with last_activity := now }
      | SctpChunk.Shutdown _ =>
        match trySend c (replyPacket c [SctpChunk.ShutdownAck]) with
        | Except.error e => ChunkOutcome.done c (some e)
        | Except.ok c1 => ChunkOutcome.cont c1
      | SctpChunk.ShutdownAck =>
        let c1 := { c with sctp_state := SctpState.Shutdown }
        ChunkOutcome.done (startShutdown c1 now sd).1 (startShutdown c1 now sd).2
      | SctpChunk.Abort =>
        let c1 := { c with sctp_state := SctpState.Shutdown }
        ChunkOutcome.done (startShutdown c1 now sd).1 (startShutdown c1 now sd).2
      | SctpChunk.ForwardTsn new_cumulative_tsn =>
        ChunkOutcome.cont { c with sctp_remote_tsn := new_cumulative_tsn }
      | SctpChunk.InitAck _ _ _ _ _ _ => ChunkOutcome.cont c
      | SctpChunk.CookieAck => ChunkOutcome.cont c
    | _ => ChunkOutcome.cont c

/-- The `for chunk in sctp_packet.chunks` loop of `receive_sctp_packet`. -/
def processChunks (pkt : SctpPacket) (now rngTag rngTsn : Nat)
    (sd : TlsShutdownOutcome) : Client → List SctpChunk → Client × Option ClientError
  | c, [] => (c, none)
  | c, ch :: rest =>
    match processChunk pkt now rngTag rngTsn sd c ch with
    | ChunkOutcome.cont c' => processChunks pkt now rngTag rngTsn sd c' rest
    | ChunkOutcome.done c' e => (c', e)

/-- `Client::receive_sctp_packet` (client.rs lines 348-536). -/
def receiveSctpPacket (c : Client) (pkt : SctpPacket) (now rngTag rngTsn : Nat)
    (sd : TlsShutdownOutcome) : Client × Option ClientError :=
  processChunks pkt now rngTag rngTsn sd c pkt.chunks

/-- The `while let ClientSslState::Established` read loop of
`receive_incoming_packet` (client.rs lines 254-280), driven by the oracle's
list of `ssl_read` outcomes (an exhausted list behaves as `WANT_READ`). -/
def sslReadLoop (now : Nat) (sd : TlsShutdownOutcome) :
    List ReadEvent → Client → Client × Option ClientError
  | [], c => (c, none)
  | ev :: evs, c =>
    match c.ssl_state with
    | ClientSslState.Established _ =>
      match ev with
      | ReadEvent.pkt p rngTag rngTsn =>
        match receiveSctpPacket c p now rngTag rngTsn sd with
        | (c', none) => sslReadLoop now sd evs c'
        | (c', some e) => (c', some e)
      | ReadEvent.parseErr => sslReadLoop now sd evs c
      | ReadEvent.wantRead => (c, none)
      | ReadEvent.zeroReturn =>
        match startShutdown c now sd with
        | (c', none) => sslReadLoop now sd evs c'
        | (c', some e) => (c', some e)
      | ReadEvent.tlsErr => (c, some ClientError.TlsError)
    | _ => (c, none)

/-- `Client::receive_incoming_packet` (client.rs lines 206-283).  The pushed
datagram joins `incoming_udp`; the TLS library then consumes inbound bytes
and produces outbound records at its discretion, so the handshake outcomes
carry the oracle-supplied resulting queue state.  `mem::replace` leaves
`Shutdown` behind on early error returns. -/
def receiveIncoming (c : Client) (datagram : List Nat) (now : Nat)
    (hs : HandshakeOutcome) (reads : List ReadEvent) (sd : TlsShutdownOutcome) :
    Client × Option ClientError :=
  match c.ssl_state with
  | ClientSslState.Handshake _ =>
    match hs with
    | HandshakeOutcome.ok pkts =>
      sslReadLoop now sd reads { c with ssl_state := ClientSslState.Established pkts }
    | HandshakeOutcome.setupFailure =>
      ({ c with ssl_state := ClientSslState.Shutdown }, some ClientError.OpenSslError)
    | HandshakeOutcome.failure pkts =>
      sslReadLoop now sd reads { c with ssl_state := ClientSslState.Handshake pkts }
    | HandshakeOutcome.wouldBlock pkts =>
      sslReadLoop now sd reads { c with ssl_state := ClientSslState.Handshake pkts }
  | ClientSslState.Established pkts =>
    let pkts' := { pkts with incoming_udp := pkts.incoming_udp ++ [datagram] }
    sslReadLoop now sd reads { c with ssl_state := ClientSslState.Established pkts' }
  | ClientSslState.ShuttingDown pkts =>
    let pkts' := { pkts with incoming_udp := pkts.incoming_udp ++ [datagram] }
    match sd with
    | TlsShutdownOutcome.wantRead =>
      sslReadLoop now sd reads { c with ssl_state := ClientSslState.ShuttingDown pkts' }
    | TlsShutdownOutcome.sent =>
      sslReadLoop now sd reads { c with ssl_state := ClientSslState.ShuttingDown pkts' }
    | TlsShutdownOutcome.received =>
      sslReadLoop now sd reads { c with ssl_state := ClientSslState.Shutdown }
    | TlsShutdownOutcome.tlsErr =>
      ({ c with ssl_state := ClientSslState.Shutdown }, some ClientError.TlsError)
  | ClientSslState.Shutdown => (c, some ClientError.NotConnected)

/-! ## Operation sequences and reachability -/

/-- One invocation of a public mutating entry point, with its external
inputs (datagram, clock value, TLS oracle data) bundled in. -/
inductive ClientOp where
  | recvIncoming (datagram : List Nat) (now : Nat) (hs : HandshakeOutcome)
      (reads : List ReadEvent) (sd : TlsShutdownOutcome)
  | takeOutgoing
  | sendMsg (message_type : MessageType) (message : List Nat)
  | genPeriodic (now : Nat)
  | startSd (now : Nat) (sd : TlsShutdownOutcome)
  | recvMsgs
  deriving DecidableEq

/-- The client state after an entry point runs (errors are returned to the
owner; the mutated state remains). -/
def applyOp (c : Client) : ClientOp → Client
  | ClientOp.recvIncoming d now hs reads sd => (receiveIncoming c d now hs reads sd).1
  | ClientOp.takeOutgoing => (takeOutgoingPackets c).2
  | ClientOp.sendMsg mt m => (sendMessage c mt m).1
  | ClientOp.genPeriodic now => (generatePeriodic c now).1
  | ClientOp.startSd now sd => (startShutdown c now sd).1
  | ClientOp.recvMsgs => (receiveMessages c).2

def applyOps (c : Client) (ops : List ClientOp) : Client :=
  ops.foldl applyOp c

/-- A client state reachable from `Client::new` through the public entry
points (error returns included: the post-error state is reachable). -/
def Reachable (c : Client) : Prop :=
  ∃ now ops, applyOps (newClient now) ops = c

/-! ## Shared lemmas -/

theorem max_tsn_comm (a b : Nat) : max_tsn a b = max_tsn b a := by
  unfold max_tsn
  split_ifs <;> omega

theorem max_tsn_self (a : Nat) : max_tsn a a = a := by
  simp [max_tsn]

theorem max_tsn_forward (a k : Nat) (ha : a < 2 ^ 32) (hk : k < 2 ^ 31) :
    max_tsn a ((a + k) % 2 ^ 32) = (a + k) % 2 ^ 32 := by
  unfold max_tsn
  split_ifs <;> omega

/-- The serial maximum never falls serially behind its first argument. -/
theorem max_tsn_absorb (a b : Nat) : max_tsn a (max_tsn a b) = max_tsn a b := by
  unfold max_tsn
  split_ifs <;> omega

theorem trySend_ok_of_small (c : Client) (p : SctpPacket)
    (h : sctpPacketSerializedSize p ≤ MAX_SCTP_PACKET_SIZE) :
    trySend c p = Except.ok { c with sent_sctp := c.sent_sctp ++ [p] } := by
  simp [trySend, h]

/-- The TLS shim's current outbound datagram queue, as
`take_outgoing_packets` views it. -/
def outgoingQueue (c : Client) : List (List Nat) :=
  match c.ssl_state with
  | ClientSslState.Handshake pkts => pkts.outgoing_udp
  | ClientSslState.Established pkts => pkts.outgoing_udp
  | ClientSslState.ShuttingDown pkts => pkts.outgoing_udp
  | ClientSslState.Shutdown => []

/-! ## Claims -/

/-- C6: `max_tsn` is commutative and idempotent, and for all `a < 2³²` and
`0 ≤ k < 2³¹`, `max_tsn(a, (a + k) mod 2³²) = (a + k) mod 2³²`. -/
theorem claim_C6_max_tsn_algebra :
    (∀ a b : Nat, max_tsn a b = max_tsn b a) ∧
    (∀ a : Nat, max_tsn a a = a) ∧
    (∀ a k : Nat, a < 2 ^ 32 → k < 2 ^ 31 →
      max_tsn a ((a + k) % 2 ^ 32) = (a + k) % 2 ^ 32) :=
  ⟨max_tsn_comm, max_tsn_self, max_tsn_forward⟩

theorem claim_C6_max_tsn_algebra_witness :
    max_tsn 7 9 = max_tsn 9 7 ∧ max_tsn 7 7 = 7 ∧
    max_tsn 4294967290 ((4294967290 + 8) % 2 ^ 32) = (4294967290 + 8) % 2 ^ 32 :=
  ⟨claim_C6_max_tsn_algebra.1 7 9, claim_C6_max_tsn_algebra.2.1 7,
   claim_C6_max_tsn_algebra.2.2 4294967290 8 (by decide) (by decide)⟩

/-- C7: `take_outgoing_packets` yields the shim's outbound queue in enqueue
order and clears it; a second call with no intervening operation yields the
empty sequence; in the `Shutdown` DTLS phase it always yields the empty
sequence. -/
theorem claim_C7_take_outgoing (c : Client) :
    (takeOutgoingPackets c).1 = outgoingQueue c ∧
    outgoingQueue (takeOutgoingPackets c).2 = [] ∧
    (takeOutgoingPackets (takeOutgoingPackets c).2).1 = [] ∧
    (c.ssl_state = ClientSslState.Shutdown → (takeOutgoingPackets c).1 = []) := by
  obtain ⟨ssl, la, ls, rm, ss, lp, rp, lvt, rvt, lt, rt, log⟩ := c
  cases ssl <;> simp [takeOutgoingPackets, outgoingQueue]

/-- A concrete established client with two datagrams queued on the shim. -/
def cWithQueue : Client :=
  { newClient 0 with
    ssl_state := ClientSslState.Established
      { incoming_udp := [], outgoing_udp := [[1, 2], [3]] } }

theorem claim_C7_take_outgoing_witness :
    (takeOutgoingPackets cWithQueue).1 = outgoingQueue cWithQueue ∧
    outgoingQueue (takeOutgoingPackets cWithQueue).2 = [] ∧
    (takeOutgoingPackets (takeOutgoingPackets cWithQueue).2).1 = [] ∧
    (cWithQueue.ssl_state = ClientSslState.Shutdown →
      (takeOutgoingPackets cWithQueue).1 = []) :=
  claim_C7_take_outgoing cWithQueue

/-- C8: `generate_periodic` emits exactly one HEARTBEAT carrying the fixed
`SCTP_HEARTBEAT` blob and updates `last_sent` when more than
`HEARTBEAT_INTERVAL` has passed since `last_sent` and both DTLS and SCTP
are `Established`; in every other situation it emits nothing and leaves the
state unchanged. -/
theorem claim_C8_generate_periodic (c : Client) (now : Nat) :
    (∀ pkts, c.ssl_state = ClientSslState.Established pkts →
      c.sctp_state = SctpState.Established →
      HEARTBEAT_INTERVAL < now - c.last_sent →
      generatePeriodic c now =
        ({ c with
            sent_sctp := c.sent_sctp ++
              [replyPacket c [SctpChunk.Heartbeat (some SCTP_HEARTBEAT)]]
            last_sent := now }, none)) ∧
    (¬ HEARTBEAT_INTERVAL < now - c.last_sent →
      generatePeriodic c now = (c, none)) ∧
    (sslIsEstablished c = false ∨ c.sctp_state ≠ SctpState.Established →
      generatePeriodic c now = (c, none)) := by
  refine ⟨?_, ?_, ?_⟩
  · intro pkts hssl hsctp helapsed
    simp [generatePeriodic, hssl, hsctp, helapsed, trySend,
      sctpPacketSerializedSize, sctpChunkSerializedSize, replyPacket, pad4,
      SCTP_HEARTBEAT, MAX_SCTP_PACKET_SIZE, MAX_DTLS_MESSAGE_SIZE]
  · intro h
    simp [generatePeriodic, h]
  · intro h
    by_cases helapsed : HEARTBEAT_INTERVAL < now - c.last_sent
    · rcases hc : c.ssl_state with p | p | p | _
      · simp [generatePeriodic, helapsed, hc]
      · rcases h with h | h
        · rw [sslIsEstablished, hc] at h; cases h
        · simp [generatePeriodic, helapsed, hc, h]
      · simp [generatePeriodic, helapsed, hc]
      · simp [generatePeriodic, helapsed, hc]
    · simp [generatePeriodic, helapsed]

/-- A concrete fully-established client (both DTLS and SCTP `Established`).  -/
def cEst : Client :=
  { ssl_state := ClientSslState.Established { incoming_udp := [], outgoing_udp := [] }
    last_activity := 0
    last_sent := 0
    received_messages := []
    sctp_state := SctpState.Established
    sctp_local_port := 5000
    sctp_remote_port := 5001
    sctp_local_verification_tag := 11
    sctp_remote_verification_tag := 22
    sctp_local_tsn := 100
    sctp_remote_tsn := 5
    sent_sctp := [] }

theorem claim_C8_generate_periodic_witness :
    generatePeriodic cEst 5000 =
      ({ cEst with
          sent_sctp := cEst.sent_sctp ++
            [replyPacket cEst [SctpChunk.Heartbeat (some SCTP_HEARTBEAT)]]
          last_sent := 5000 }, none) ∧
    generatePeriodic cEst 2000 = (cEst, none) :=
  ⟨(claim_C8_generate_periodic cEst 5000).1 _ rfl rfl (by decide),
   (claim_C8_generate_periodic cEst 2000).2.1 (by decide)⟩

/-! ## send_message: success shape and TSN sequences -/

/-- The single-DATA-chunk packet `send_message` serializes, given the
sender's association parameters. -/
def mkDataPacket (sp dp vt tsn : Nat) (mt : MessageType) (m : List Nat) :
    SctpPacket :=
  { source_port := sp
    dest_port := dp
    verification_tag := vt
    chunks := [SctpChunk.Data SCTP_FLAG_COMPLETE_UNRELIABLE tsn 0 0
      (if mt = MessageType.Text then DATA_CHANNEL_PROTO_STRING
       else DATA_CHANNEL_PROTO_BINARY) m] }

/-- A run of consecutive `send_message` calls, stopping at the first error. -/
def sendAll : Client → List (MessageType × List Nat) → Client × Option ClientError
  | c, [] => (c, none)
  | c, (mt, m) :: rest =>
    match sendMessage c mt m with
    | (c', none) => sendAll c' rest
    | (c', some e) => (c', some e)

/-- The DATA packets a successful run of `send_message` calls emits:
one per call, TSNs advancing by one modulo `2³²`. -/
def expectedDataPackets (sp dp vt : Nat) :
    Nat → List (MessageType × List Nat) → List SctpPacket
  | _, [] => []
  | t0, (mt, m) :: rest =>
    mkDataPacket sp dp vt t0 mt m ::
      expectedDataPackets sp dp vt ((t0 + 1) % 2 ^ 32) rest

/-- The TSNs of the DATA chunks of a packet, in order. -/
def packetDataTsns (p : SctpPacket) : List Nat :=
  p.chunks.filterMap fun ch =>
    match ch with
    | SctpChunk.Data _ tsn _ _ _ _ => some tsn
    | _ => none

theorem trySend_ok_shape (c c' : Client) (p : SctpPacket)
    (h : trySend c p = Except.ok c') :
    c' = { c with sent_sctp := c.sent_sctp ++ [p] } := by
  unfold trySend at h
  split at h
  · exact (Except.ok.injEq _ _).mp h |>.symm
  · cases h

/-- A successful `send_message` appends exactly one single-DATA-chunk packet
carrying the pre-call local TSN and bumps the local TSN by one mod `2³²`;
nothing else changes. -/
theorem sendMessage_ok (c c' : Client) (mt : MessageType) (m : List Nat)
    (h : sendMessage c mt m = (c', none)) :
    c' = { c with
      sent_sctp := c.sent_sctp ++
        [mkDataPacket c.sctp_local_port c.sctp_remote_port
          c.sctp_remote_verification_tag c.sctp_local_tsn mt m]
      sctp_local_tsn := (c.sctp_local_tsn + 1) % 2 ^ 32 } := by
  obtain ⟨ssl, la, ls, rm, ss, lp, rp, lvt, rvt, lt, rt, log⟩ := c
  rcases ssl with p | p | p | _
  case Handshake => simp [sendMessage] at h
  case ShuttingDown => simp [sendMessage] at h
  case Shutdown => simp [sendMessage] at h
  case Established =>
    rcases ss
    case Shutdown => simp [sendMessage] at h
    case InitAck => simp [sendMessage] at h
    case Established =>
      simp only [sendMessage, ne_eq, not_true_eq_false, if_false, ite_false,
        reduceIte] at h
      split at h
      · simp only [Prod.mk.injEq] at h
        cases h.2
      · rename_i c1 heq
        simp only [Prod.mk.injEq] at h
        obtain ⟨h1, -⟩ := h
        subst h1
        rw [trySend_ok_shape _ _ _ heq]
        simp [mkDataPacket, replyPacket]

/-- A successful run of `send_message` calls appends exactly the expected
DATA packets, in call order. -/
theorem sendAll_ok (msgs : List (MessageType × List Nat)) :
    ∀ c c', sendAll c msgs = (c', none) →
      c'.sent_sctp = c.sent_sctp ++
        expectedDataPackets c.sctp_local_port c.sctp_remote_port
          c.sctp_remote_verification_tag c.sctp_local_tsn msgs := by
  induction msgs with
  | nil =>
    intro c c' h
    simp only [sendAll, Prod.mk.injEq] at h
    obtain ⟨h1, -⟩ := h
    subst h1
    simp [expectedDataPackets]
  | cons hd rest ih =>
    obtain ⟨mt, m⟩ := hd
    intro c c' h
    simp only [sendAll] at h
    split at h
    · rename_i c1 heq
      have hshape := sendMessage_ok c c1 mt m heq
      subst hshape
      have := ih _ _ h
      simpa [expectedDataPackets] using this
    · rename_i c1 e heq
      simp only [Prod.mk.injEq] at h
      cases h.2

/-- The TSNs carried by the expected packets of an `n`-call run are
`t₀, t₀+1, …, t₀+n-1` modulo `2³²`. -/
theorem expectedDataPackets_tsns (sp dp vt : Nat)
    (msgs : List (MessageType × List Nat)) :
    ∀ t0, t0 < 2 ^ 32 →
      (expectedDataPackets sp dp vt t0 msgs).map packetDataTsns =
        (List.range msgs.length).map fun i => [(t0 + i) % 2 ^ 32] := by
  induction msgs with
  | nil => intro t0 ht; simp [expectedDataPackets]
  | cons hd rest ih =>
    intro t0 ht
    obtain ⟨mt, m⟩ := hd
    simp only [expectedDataPackets, List.map_cons, List.length_cons,
      List.range_succ_eq_map, List.map_map]
    refine List.cons_eq_cons.mpr ⟨?_, ?_⟩
    · simp only [packetDataTsns, mkDataPacket, List.filterMap_cons,
        List.filterMap_nil, Nat.add_zero]
      rw [Nat.mod_eq_of_lt ht]
    · rw [ih ((t0 + 1) % 2 ^ 32) (Nat.mod_lt _ (by norm_num))]
      refine List.map_congr_left fun i hi => ?_
      simp only [Function.comp]
      rw [Nat.mod_add_mod]
      congr 2
      omega

/-- C3: a successful `send_message` writes exactly one DATA chunk with PPID
51 (Text) / 53 (Binary), `chunk_flags = SCTP_FLAG_COMPLETE_UNRELIABLE`,
`stream_id = 0`, `stream_seq = 0`, `tsn =` the pre-call `sctp_local_tsn`,
then bumps `sctp_local_tsn` by one modulo `2³²`; hence `n` successful calls
in a row carry TSNs `t₀, t₀+1, …, t₀+n-1 (mod 2³²)` in call order. -/
theorem claim_C3_send_message_data_tsns (c c' d d' : Client)
    (mt : MessageType) (m : List Nat) (msgs : List (MessageType × List Nat)) :
    (sendMessage c mt m = (c', none) →
      c' = { c with
        sent_sctp := c.sent_sctp ++
          [mkDataPacket c.sctp_local_port c.sctp_remote_port
            c.sctp_remote_verification_tag c.sctp_local_tsn mt m]
        sctp_local_tsn := (c.sctp_local_tsn + 1) % 2 ^ 32 }) ∧
    (sendAll d msgs = (d', none) →
      d'.sent_sctp = d.sent_sctp ++
        expectedDataPackets d.sctp_local_port d.sctp_remote_port
          d.sctp_remote_verification_tag d.sctp_local_tsn msgs) ∧
    (∀ sp dp vt t0, t0 < 2 ^ 32 →
      (expectedDataPackets sp dp vt t0 msgs).map packetDataTsns =
        (List.range msgs.length).map fun i => [(t0 + i) % 2 ^ 32]) :=
  ⟨sendMessage_ok c c' mt m,
   sendAll_ok msgs d d',
   fun sp dp vt t0 ht => expectedDataPackets_tsns sp dp vt msgs t0 ht⟩

theorem claim_C3_send_message_data_tsns_witness :
    ((sendAll cEst [(MessageType.Text, [104]), (MessageType.Binary, [1, 2])]).1).sent_sctp =
      cEst.sent_sctp ++
        expectedDataPackets cEst.sctp_local_port cEst.sctp_remote_port
          cEst.sctp_remote_verification_tag cEst.sctp_local_tsn
          [(MessageType.Text, [104]), (MessageType.Binary, [1, 2])] ∧
    (expectedDataPackets 5000 5001 22 100
        [(MessageType.Text, [104]), (MessageType.Binary, [1, 2])]).map packetDataTsns =
      (List.range 2).map fun i => [(100 + i) % 2 ^ 32] :=
  ⟨(claim_C3_send_message_data_tsns cEst cEst cEst
      ((sendAll cEst [(MessageType.Text, [104]), (MessageType.Binary, [1, 2])]).1)
      MessageType.Text [104]
      [(MessageType.Text, [104]), (MessageType.Binary, [1, 2])]).2.1 (by decide),
   (claim_C3_send_message_data_tsns cEst cEst cEst cEst
      MessageType.Text [104]
      [(MessageType.Text, [104]), (MessageType.Binary, [1, 2])]).2.2
      5000 5001 22 100 (by decide)⟩

/-! ## The DATA-chunk dispatch arm, characterized -/

/-- Handling one received DATA chunk while DTLS is `Established`: advance
`sctp_remote_tsn` by `max_tsn`, emit the DCEP ACK reply exactly when the
PPID is CONTROL and the first payload byte is `DATA_CHANNEL_OPEN` (bumping
the local TSN), enqueue Text/Binary messages for PPIDs 51/53, and always
finish with a SACK carrying the updated remote TSN, window
`SCTP_BUFFER_SIZE`, no gap blocks and no duplicates. -/
theorem processChunk_data_eq (c : Client) (pkts : ClientSslPackets)
    (h : c.ssl_state = ClientSslState.Established pkts)
    (pkt : SctpPacket) (now rngTag rngTsn : Nat) (sd : TlsShutdownOutcome)
    (flags tsn sid sseq ppid : Nat) (ud : List Nat) :
    processChunk pkt now rngTag rngTsn sd c
        (SctpChunk.Data flags tsn sid sseq ppid ud) =
      ChunkOutcome.cont { c with
        sctp_remote_tsn := max_tsn c.sctp_remote_tsn tsn
        sctp_local_tsn :=
          if ppid = DATA_CHANNEL_PROTO_CONTROL ∧
              ud.head? = some DATA_CHANNEL_MESSAGE_OPEN then
            (c.sctp_local_tsn + 1) % 2 ^ 32
          else c.sctp_local_tsn
        received_messages := c.received_messages ++
          (if ppid = DATA_CHANNEL_PROTO_STRING then [(MessageType.Text, ud)]
           else if ppid = DATA_CHANNEL_PROTO_BINARY then [(MessageType.Binary, ud)]
           else [])
        sent_sctp := c.sent_sctp ++
          (if ppid = DATA_CHANNEL_PROTO_CONTROL ∧
              ud.head? = some DATA_CHANNEL_MESSAGE_OPEN then
            [replyPacket c [SctpChunk.Data SCTP_FLAG_COMPLETE_UNRELIABLE
              c.sctp_local_tsn sid 0 DATA_CHANNEL_PROTO_CONTROL
              [DATA_CHANNEL_MESSAGE_ACK]]]
           else []) ++
          [replyPacket c [SctpChunk.SAck (max_tsn c.sctp_remote_tsn tsn)
            SCTP_BUFFER_SIZE 0 0]]
        last_activity := now
        last_sent := now } := by
  obtain ⟨ssl, la, ls, rm, ss, lp, rp, lvt, rvt, lt, rt, log⟩ := c
  obtain rfl : ssl = ClientSslState.Established pkts := h
  by_cases h50 : ppid = DATA_CHANNEL_PROTO_CONTROL
  · subst h50
    match ud with
    | [] =>
      simp [processChunk, replyPacket, trySend, sctpPacketSerializedSize,
        sctpChunkSerializedSize, pad4, MAX_SCTP_PACKET_SIZE,
        MAX_DTLS_MESSAGE_SIZE, DATA_CHANNEL_PROTO_CONTROL,
        DATA_CHANNEL_PROTO_STRING, DATA_CHANNEL_PROTO_BINARY]
    | b :: rest =>
      by_cases hb : b = DATA_CHANNEL_MESSAGE_OPEN
      · subst hb
        simp [processChunk, replyPacket, trySend, sctpPacketSerializedSize,
          sctpChunkSerializedSize, pad4, MAX_SCTP_PACKET_SIZE,
          MAX_DTLS_MESSAGE_SIZE, DATA_CHANNEL_PROTO_CONTROL,
          DATA_CHANNEL_PROTO_STRING, DATA_CHANNEL_PROTO_BINARY]
      · simp [processChunk, replyPacket, trySend, sctpPacketSerializedSize,
          sctpChunkSerializedSize, pad4, MAX_SCTP_PACKET_SIZE,
          MAX_DTLS_MESSAGE_SIZE, DATA_CHANNEL_PROTO_CONTROL,
          DATA_CHANNEL_PROTO_STRING, DATA_CHANNEL_PROTO_BINARY, hb]
  · by_cases h51 : ppid = DATA_CHANNEL_PROTO_STRING
    · subst h51
      simp [processChunk, replyPacket, trySend, sctpPacketSerializedSize,
        sctpChunkSerializedSize, pad4, MAX_SCTP_PACKET_SIZE,
        MAX_DTLS_MESSAGE_SIZE, DATA_CHANNEL_PROTO_CONTROL,
        DATA_CHANNEL_PROTO_STRING, DATA_CHANNEL_PROTO_BINARY]
    · by_cases h53 : ppid = DATA_CHANNEL_PROTO_BINARY
      · subst h53
        simp [processChunk, replyPacket, trySend, sctpPacketSerializedSize,
          sctpChunkSerializedSize, pad4, MAX_SCTP_PACKET_SIZE,
          MAX_DTLS_MESSAGE_SIZE, DATA_CHANNEL_PROTO_CONTROL,
          DATA_CHANNEL_PROTO_STRING, DATA_CHANNEL_PROTO_BINARY]
      · simp [processChunk, replyPacket, trySend, sctpPacketSerializedSize,
          sctpChunkSerializedSize, pad4, MAX_SCTP_PACKET_SIZE,
          MAX_DTLS_MESSAGE_SIZE, h50, h51, h53]

/-- A concrete inbound packet header (ports/tag as the peer would set them
for `cEst`); only the INIT arm reads these fields. -/
def pktIn : SctpPacket :=
  { source_port := 5001, dest_port := 5000, verification_tag := 11, chunks := [] }

/-- C1: for every DATA chunk received while DTLS is `Established`, the
client updates `sctp_remote_tsn` to `max_tsn(previous, received_tsn)` and
the SCTP packets it produces in response are a DCEP `DATA_CHANNEL_ACK`
DATA chunk exactly when the PPID is CONTROL with first byte
`DATA_CHANNEL_OPEN`, followed by a SACK whose `cumulative_tsn_ack` is the
updated remote TSN, `adv_recv_window = SCTP_BUFFER_SIZE`, zero gap-ack
blocks and zero duplicate TSNs — for all PPIDs. -/
theorem claim_C1_data_sack (c : Client) (pkts : ClientSslPackets)
    (h : c.ssl_state = ClientSslState.Established pkts)
    (pkt : SctpPacket) (now rngTag rngTsn : Nat) (sd : TlsShutdownOutcome)
    (flags tsn sid sseq ppid : Nat) (ud : List Nat) :
    ∃ c', processChunk pkt now rngTag rngTsn sd c
        (SctpChunk.Data flags tsn sid sseq ppid ud) = ChunkOutcome.cont c' ∧
      c'.sctp_remote_tsn = max_tsn c.sctp_remote_tsn tsn ∧
      c'.sent_sctp = c.sent_sctp ++
        (if ppid = DATA_CHANNEL_PROTO_CONTROL ∧
            ud.head? = some DATA_CHANNEL_MESSAGE_OPEN then
          [replyPacket c [SctpChunk.Data SCTP_FLAG_COMPLETE_UNRELIABLE
            c.sctp_local_tsn sid 0 DATA_CHANNEL_PROTO_CONTROL
            [DATA_CHANNEL_MESSAGE_ACK]]]
         else []) ++
        [replyPacket c [SctpChunk.SAck (max_tsn c.sctp_remote_tsn tsn)
          SCTP_BUFFER_SIZE 0 0]] := by
  refine ⟨_, processChunk_data_eq c pkts h pkt now rngTag rngTsn sd
    flags tsn sid sseq ppid ud, rfl, rfl⟩

theorem claim_C1_data_sack_witness :
    ∃ c', processChunk pktIn 9 0 0 TlsShutdownOutcome.sent cEst
        (SctpChunk.Data 7 6 0 0 50 [3]) = ChunkOutcome.cont c' ∧
      c'.sctp_remote_tsn = max_tsn cEst.sctp_remote_tsn 6 ∧
      c'.sent_sctp = cEst.sent_sctp ++
        (if (50 : Nat) = DATA_CHANNEL_PROTO_CONTROL ∧
            ([3] : List Nat).head? = some DATA_CHANNEL_MESSAGE_OPEN then
          [replyPacket cEst [SctpChunk.Data SCTP_FLAG_COMPLETE_UNRELIABLE
            cEst.sctp_local_tsn 0 0 DATA_CHANNEL_PROTO_CONTROL
            [DATA_CHANNEL_MESSAGE_ACK]]]
         else []) ++
        [replyPacket cEst [SctpChunk.SAck (max_tsn cEst.sctp_remote_tsn 6)
          SCTP_BUFFER_SIZE 0 0]] :=
  claim_C1_data_sack cEst ⟨[], []⟩ rfl pktIn 9 0 0 TlsShutdownOutcome.sent
    7 6 0 0 50 [3]

/-- C10: a DATA chunk with PPID CONTROL (50) and empty payload produces no
DCEP reply, leaves `sctp_local_tsn` and the pending message queue
untouched, yet still advances `sctp_remote_tsn` via `max_tsn` and emits
the usual SACK. -/
theorem claim_C10_empty_control_data (c : Client) (pkts : ClientSslPackets)
    (h : c.ssl_state = ClientSslState.Established pkts)
    (pkt : SctpPacket) (now rngTag rngTsn : Nat) (sd : TlsShutdownOutcome)
    (flags tsn sid sseq : Nat) :
    processChunk pkt now rngTag rngTsn sd c
        (SctpChunk.Data flags tsn sid sseq DATA_CHANNEL_PROTO_CONTROL []) =
      ChunkOutcome.cont { c with
        sctp_remote_tsn := max_tsn c.sctp_remote_tsn tsn
        sent_sctp := c.sent_sctp ++
          [replyPacket c [SctpChunk.SAck (max_tsn c.sctp_remote_tsn tsn)
            SCTP_BUFFER_SIZE 0 0]]
        last_activity := now
        last_sent := now } := by
  rw [processChunk_data_eq c pkts h pkt now rngTag rngTsn sd
    flags tsn sid sseq DATA_CHANNEL_PROTO_CONTROL []]
  simp [DATA_CHANNEL_PROTO_CONTROL, DATA_CHANNEL_PROTO_STRING,
    DATA_CHANNEL_PROTO_BINARY]

theorem claim_C10_empty_control_data_witness :
    processChunk pktIn 9 0 0 TlsShutdownOutcome.sent cEst
        (SctpChunk.Data 7 6 0 0 DATA_CHANNEL_PROTO_CONTROL []) =
      ChunkOutcome.cont { cEst with
        sctp_remote_tsn := max_tsn cEst.sctp_remote_tsn 6
        sent_sctp := cEst.sent_sctp ++
          [replyPacket cEst [SctpChunk.SAck (max_tsn cEst.sctp_remote_tsn 6)
            SCTP_BUFFER_SIZE 0 0]]
        last_activity := 9
        last_sent := 9 } :=
  claim_C10_empty_control_data cEst ⟨[], []⟩ rfl pktIn 9 0 0
    TlsShutdownOutcome.sent 7 6 0 0

/-- When SCTP is already `Shutdown`, `start_shutdown` sends nothing and
leaves the SCTP phase at `Shutdown`, whatever the TLS shutdown outcome. -/
theorem startShutdown_sctp_already_shutdown (c : Client) (now : Nat)
    (o : TlsShutdownOutcome) (hs : c.sctp_state = SctpState.Shutdown) :
    (startShutdown c now o).1.sent_sctp = c.sent_sctp ∧
    (startShutdown c now o).1.sctp_state = SctpState.Shutdown := by
  rcases hc : c.ssl_state with p | p | p | _
  · simp [startShutdown, hc, hs]
  · cases o <;> simp [startShutdown, hc, hs]
  · simp [startShutdown, hc, hs]
  · simp [startShutdown, hc, hs]

/-- C9: receiving a SHUTDOWN-ACK or ABORT chunk never makes the client emit
an SCTP packet (in particular no ABORT): the dispatch arm sets the SCTP
phase to `Shutdown` before invoking `start_shutdown`, and `start_shutdown`
only sends an ABORT when the SCTP phase is not already `Shutdown`. -/
theorem claim_C9_no_abort_reply (c : Client) (pkts : ClientSslPackets)
    (h : c.ssl_state = ClientSslState.Established pkts)
    (pkt : SctpPacket) (now rngTag rngTsn : Nat) (sd : TlsShutdownOutcome) :
    (((processChunk pkt now rngTag rngTsn sd c SctpChunk.ShutdownAck).client).sent_sctp
        = c.sent_sctp ∧
      ((processChunk pkt now rngTag rngTsn sd c SctpChunk.ShutdownAck).client).sctp_state
        = SctpState.Shutdown) ∧
    (((processChunk pkt now rngTag rngTsn sd c SctpChunk.Abort).client).sent_sctp
        = c.sent_sctp ∧
      ((processChunk pkt now rngTag rngTsn sd c SctpChunk.Abort).client).sctp_state
        = SctpState.Shutdown) := by
  have h1 := startShutdown_sctp_already_shutdown
    { c with ssl_state := ClientSslState.Established pkts
             sctp_state := SctpState.Shutdown } now sd rfl
  constructor <;>
    · simp only [processChunk, h, ChunkOutcome.client]
      exact ⟨by simpa using h1.1, h1.2⟩

theorem claim_C9_no_abort_reply_witness :
    (((processChunk pktIn 9 0 0 TlsShutdownOutcome.sent cEst
        SctpChunk.ShutdownAck).client).sent_sctp = cEst.sent_sctp ∧
      ((processChunk pktIn 9 0 0 TlsShutdownOutcome.sent cEst
        SctpChunk.ShutdownAck).client).sctp_state = SctpState.Shutdown) ∧
    (((processChunk pktIn 9 0 0 TlsShutdownOutcome.sent cEst
        SctpChunk.Abort).client).sent_sctp = cEst.sent_sctp ∧
      ((processChunk pktIn 9 0 0 TlsShutdownOutcome.sent cEst
        SctpChunk.Abort).client).sctp_state = SctpState.Shutdown) :=
  claim_C9_no_abort_reply cEst ⟨[], []⟩ rfl pktIn 9 0 0 TlsShutdownOutcome.sent

/-- C2 as stated is false: a FORWARD-TSN chunk overwrites `sctp_remote_tsn`
with the received value, unclamped, and can move it serially backward.
Here the established client `cEst` holds `sctp_remote_tsn = 5`; one
`receive_incoming_packet` call whose decrypted record carries
`FORWARD-TSN{new_cumulative_tsn = 3}` drops `sctp_remote_tsn` to `3`,
which is serially behind `5`. -/
theorem claim_C2_counterexample :
    cEst.sctp_remote_tsn = 5 ∧
    (receiveIncoming cEst [] 0
        (HandshakeOutcome.wouldBlock { incoming_udp := [], outgoing_udp := [] })
        [ReadEvent.pkt { pktIn with chunks := [SctpChunk.ForwardTsn 3] } 0 0]
        TlsShutdownOutcome.sent).1.sctp_remote_tsn = 3 ∧
    ¬ serialLe 5 3 := by
  decide

/-- C2 amended: `sctp_remote_tsn` advances forward in RFC 1982 serial order
on every received DATA chunk (it becomes `max_tsn(old, tsn)`, never
serially behind the old value); but a FORWARD-TSN chunk overwrites it with
the received value, unclamped, and so can move it backward. -/
theorem claim_C2_amended_remote_tsn (c : Client) (pkts : ClientSslPackets)
    (h : c.ssl_state = ClientSslState.Established pkts)
    (pkt : SctpPacket) (now rngTag rngTsn : Nat) (sd : TlsShutdownOutcome)
    (flags tsn sid sseq ppid : Nat) (ud : List Nat) :
    (∃ c', processChunk pkt now rngTag rngTsn sd c
        (SctpChunk.Data flags tsn sid sseq ppid ud) = ChunkOutcome.cont c' ∧
      c'.sctp_remote_tsn = max_tsn c.sctp_remote_tsn tsn ∧
      serialLe c.sctp_remote_tsn c'.sctp_remote_tsn) ∧
    (∀ n, ((processChunk pkt now rngTag rngTsn sd c
        (SctpChunk.ForwardTsn n)).client).sctp_remote_tsn = n) := by
  constructor
  · refine ⟨_, processChunk_data_eq c pkts h pkt now rngTag rngTsn sd
      flags tsn sid sseq ppid ud, rfl, ?_⟩
    simpa [serialLe] using max_tsn_absorb c.sctp_remote_tsn tsn
  · intro n
    simp [processChunk, h, ChunkOutcome.client]

theorem claim_C2_amended_remote_tsn_witness :
    (∃ c', processChunk pktIn 9 0 0 TlsShutdownOutcome.sent cEst
        (SctpChunk.Data 7 6 0 0 51 [104]) = ChunkOutcome.cont c' ∧
      c'.sctp_remote_tsn = max_tsn cEst.sctp_remote_tsn 6 ∧
      serialLe cEst.sctp_remote_tsn c'.sctp_remote_tsn) ∧
    (∀ n, ((processChunk pktIn 9 0 0 TlsShutdownOutcome.sent cEst
        (SctpChunk.ForwardTsn n)).client).sctp_remote_tsn = n) :=
  claim_C2_amended_remote_tsn cEst ⟨[], []⟩ rfl pktIn 9 0 0
    TlsShutdownOutcome.sent 7 6 0 0 51 [104]

/-! ## State-machine lemmas: phase evolution across operations -/

/-- The `ssl_read` loop does nothing when DTLS is not `Established`. -/
theorem sslReadLoop_not_est (now : Nat) (sd : TlsShutdownOutcome)
    (evs : List ReadEvent) (c : Client) (h : sslIsEstablished c = false) :
    sslReadLoop now sd evs c = (c, none) := by
  cases evs with
  | nil => rfl
  | cons ev evs =>
    rcases hc : c.ssl_state with p | p | p | _
    · simp [sslReadLoop, hc]
    · rw [sslIsEstablished, hc] at h; cases h
    · simp [sslReadLoop, hc]
    · simp [sslReadLoop, hc]

/-- `start_shutdown` from a non-`Established` DTLS phase is a no-op. -/
theorem startShutdown_not_est (c : Client) (now : Nat) (o : TlsShutdownOutcome)
    (h : sslIsEstablished c = false) :
    startShutdown c now o = (c, none) := by
  rcases hc : c.ssl_state with p | p | p | _
  · simp [startShutdown, hc]
  · rw [sslIsEstablished, hc] at h; cases h
  · simp [startShutdown, hc]
  · simp [startShutdown, hc]

/-- `start_shutdown` from `Established` always ends with the DTLS phase
`ShuttingDown` or `Shutdown` and the SCTP phase `Shutdown` (the ABORT, a
16-byte packet, always fits the serialization buffer). -/
theorem startShutdown_from_est (c : Client) (pkts : ClientSslPackets)
    (now : Nat) (o : TlsShutdownOutcome)
    (h : c.ssl_state = ClientSslState.Established pkts) :
    sslClosing (startShutdown c now o).1 = true ∧
    (startShutdown c now o).1.sctp_state = SctpState.Shutdown := by
  by_cases hs : c.sctp_state = SctpState.Shutdown
  · cases o <;> simp [startShutdown, h, hs, sslClosing]
  · have hsend := trySend_ok_of_small c (replyPacket c [SctpChunk.Abort])
      (by simp [sctpPacketSerializedSize, sctpChunkSerializedSize, replyPacket,
        MAX_SCTP_PACKET_SIZE, MAX_DTLS_MESSAGE_SIZE])
    cases o <;> simp [startShutdown, h, hs, hsend, sslClosing]

/-- `send_message` never changes the DTLS or SCTP phase or the local TSN
counter except on the success path. -/
theorem sendMessage_phase_eq (c : Client) (mt : MessageType) (m : List Nat) :
    (sendMessage c mt m).1.ssl_state = c.ssl_state ∧
    (sendMessage c mt m).1.sctp_state = c.sctp_state := by
  rcases hc : c.ssl_state with p | p | p | _
  · simp [sendMessage, hc]
  · by_cases hs : c.sctp_state = SctpState.Established
    · simp only [sendMessage, hc, hs, ne_eq, not_true_eq_false, if_false,
        ite_false, reduceIte]
      split
      · simp [hc, hs]
      · rename_i c1 heq
        obtain rfl := trySend_ok_shape _ _ _ heq
        simp [hc, hs]
    · simp [sendMessage, hc, hs]
  · simp [sendMessage, hc]
  · simp [sendMessage, hc]

/-- `generate_periodic` never changes the DTLS or SCTP phase. -/
theorem generatePeriodic_phase_eq (c : Client) (now : Nat) :
    (generatePeriodic c now).1.ssl_state = c.ssl_state ∧
    (generatePeriodic c now).1.sctp_state = c.sctp_state := by
  by_cases helapsed : HEARTBEAT_INTERVAL < now - c.last_sent
  · rcases hc : c.ssl_state with p | p | p | _
    · simp [generatePeriodic, helapsed, hc]
    · by_cases hs : c.sctp_state = SctpState.Established
      · have hsend := trySend_ok_of_small c
          (replyPacket c [SctpChunk.Heartbeat (some SCTP_HEARTBEAT)])
          (by simp [sctpPacketSerializedSize, sctpChunkSerializedSize,
            replyPacket, pad4, SCTP_HEARTBEAT, MAX_SCTP_PACKET_SIZE,
            MAX_DTLS_MESSAGE_SIZE])
        simp [generatePeriodic, helapsed, hc, hs, hsend]
      · simp [generatePeriodic, helapsed, hc, hs]
    · simp [generatePeriodic, helapsed, hc]
    · simp [generatePeriodic, helapsed, hc]
  · simp [generatePeriodic, helapsed]

/-- Every dispatch arm except SHUTDOWN-ACK and ABORT leaves the DTLS phase
untouched (only `start_shutdown` can change it). -/
theorem processChunk_ssl_preserved (pkt : SctpPacket) (now rngTag rngTsn : Nat)
    (sd : TlsShutdownOutcome) (c : Client) (ch : SctpChunk)
    (h1 : ch ≠ SctpChunk.ShutdownAck) (h2 : ch ≠ SctpChunk.Abort) :
    ((processChunk pkt now rngTag rngTsn sd c ch).client).ssl_state = c.ssl_state := by
  rcases hc : c.ssl_state with p | p | p | _
  · simp [processChunk, hc, ChunkOutcome.client]
  · cases ch with
    | Init it wc nos nis itsn =>
      simp only [processChunk, hc]
      split
      · simp [ChunkOutcome.client, hc]
      · rename_i c2 heq
        obtain rfl := trySend_ok_shape _ _ _ heq
        simp [ChunkOutcome.client, hc]
    | InitAck a1 a2 a3 a4 a5 a6 => simp [processChunk, hc, ChunkOutcome.client]
    | CookieEcho ck =>
      simp only [processChunk, hc]
      split
      · split
        · simp [ChunkOutcome.client, hc]
        · rename_i c1 heq
          obtain rfl := trySend_ok_shape _ _ _ heq
          split <;> simp [ChunkOutcome.client, hc]
      · simp [ChunkOutcome.client, hc]
    | CookieAck => simp [processChunk, hc, ChunkOutcome.client]
    | Data fl tsn sid ss2 ppid ud =>
      rw [processChunk_data_eq c p hc pkt now rngTag rngTsn sd fl tsn sid ss2 ppid ud]
      simp [ChunkOutcome.client, hc]
    | SAck a1 a2 gaps a4 =>
      simp only [processChunk, hc]
      split
      · split
        · simp [ChunkOutcome.client, hc]
        · rename_i c1 heq
          obtain rfl := trySend_ok_shape _ _ _ heq
          simp [ChunkOutcome.client, hc]
      · simp [ChunkOutcome.client, hc]
    | Heartbeat info =>
      simp only [processChunk, hc]
      split
      · simp [ChunkOutcome.client, hc]
      · rename_i c1 heq
        obtain rfl := trySend_ok_shape _ _ _ heq
        simp [ChunkOutcome.client, hc]
    | HeartbeatAck info => simp [processChunk, hc, ChunkOutcome.client]
    | Shutdown ct =>
      simp only [processChunk, hc]
      split
      · simp [ChunkOutcome.client, hc]
      · rename_i c1 heq
        obtain rfl := trySend_ok_shape _ _ _ heq
        simp [ChunkOutcome.client, hc]
    | ShutdownAck => exact absurd rfl h1
    | Abort => exact absurd rfl h2
    | ForwardTsn n => simp [processChunk, hc, ChunkOutcome.client]
  · simp [processChunk, hc, ChunkOutcome.client]
  · simp [processChunk, hc, ChunkOutcome.client]

/-! ## The phase invariant (DTLS not Established ⇒ SCTP Shutdown) -/

/-- The spec's data-model invariant 1: whenever the DTLS phase is not
`Established`, the SCTP phase is `Shutdown`. -/
def PhaseInv (c : Client) : Prop :=
  sslIsEstablished c = false → c.sctp_state = SctpState.Shutdown

theorem sslIsEstablished_congr (c d : Client) (h : d.ssl_state = c.ssl_state) :
    sslIsEstablished d = sslIsEstablished c := by
  rw [sslIsEstablished, sslIsEstablished, h]

theorem phaseInv_of_eq (c d : Client) (h : PhaseInv c)
    (h1 : sslIsEstablished d = sslIsEstablished c)
    (h2 : d.sctp_state = c.sctp_state) : PhaseInv d := by
  intro hf
  rw [h2]
  exact h (h1 ▸ hf)

theorem phaseInv_est (c : Client) (pkts : ClientSslPackets)
    (h : c.ssl_state = ClientSslState.Established pkts) : PhaseInv c := by
  intro hf
  rw [sslIsEstablished, h] at hf
  cases hf

theorem phaseInv_newClient (now : Nat) : PhaseInv (newClient now) := by
  intro _
  rfl

theorem phaseInv_startShutdown (c : Client) (now : Nat) (o : TlsShutdownOutcome)
    (h : PhaseInv c) : PhaseInv (startShutdown c now o).1 := by
  rcases hc : c.ssl_state with p | p | p | _
  · rw [startShutdown_not_est c now o (by rw [sslIsEstablished, hc])]
    exact h
  · intro _
    exact (startShutdown_from_est c p now o hc).2
  · rw [startShutdown_not_est c now o (by rw [sslIsEstablished, hc])]
    exact h
  · rw [startShutdown_not_est c now o (by rw [sslIsEstablished, hc])]
    exact h

theorem phaseInv_processChunk (pkt : SctpPacket) (now rngTag rngTsn : Nat)
    (sd : TlsShutdownOutcome) (c : Client) (ch : SctpChunk) (h : PhaseInv c) :
    PhaseInv ((processChunk pkt now rngTag rngTsn sd c ch).client) := by
  rcases hc : c.ssl_state with p | p | p | _
  · have he : (processChunk pkt now rngTag rngTsn sd c ch).client = c := by
      simp [processChunk, hc, ChunkOutcome.client]
    rw [he]; exact h
  · by_cases hsa : ch = SctpChunk.ShutdownAck
    · subst hsa
      simp only [processChunk, hc, ChunkOutcome.client]
      intro _
      exact (startShutdown_sctp_already_shutdown _ now sd (by simp)).2
    · by_cases hab : ch = SctpChunk.Abort
      · subst hab
        simp only [processChunk, hc, ChunkOutcome.client]
        intro _
        exact (startShutdown_sctp_already_shutdown _ now sd (by simp)).2
      · have hssl := processChunk_ssl_preserved pkt now rngTag rngTsn sd c ch hsa hab
        intro hf
        rw [sslIsEstablished, hssl, hc] at hf
        cases hf
  · have he : (processChunk pkt now rngTag rngTsn sd c ch).client = c := by
      simp [processChunk, hc, ChunkOutcome.client]
    rw [he]; exact h
  · have he : (processChunk pkt now rngTag rngTsn sd c ch).client = c := by
      simp [processChunk, hc, ChunkOutcome.client]
    rw [he]; exact h

theorem phaseInv_processChunks (pkt : SctpPacket) (now rngTag rngTsn : Nat)
    (sd : TlsShutdownOutcome) (l : List SctpChunk) :
    ∀ c, PhaseInv c → PhaseInv (processChunks pkt now rngTag rngTsn sd c l).1 := by
  induction l with
  | nil => intro c h; exact h
  | cons ch rest ih =>
    intro c h
    simp only [processChunks]
    split
    · rename_i c' heq
      apply ih
      have h2 := phaseInv_processChunk pkt now rngTag rngTsn sd c ch h
      rw [heq] at h2
      exact h2
    · rename_i c' e heq
      have h2 := phaseInv_processChunk pkt now rngTag rngTsn sd c ch h
      rw [heq] at h2
      exact h2

theorem phaseInv_sslReadLoop (now : Nat) (sd : TlsShutdownOutcome)
    (evs : List ReadEvent) :
    ∀ c, PhaseInv c → PhaseInv (sslReadLoop now sd evs c).1 := by
  induction evs with
  | nil => intro c h; exact h
  | cons ev evs ih =>
    intro c h
    rcases hc : c.ssl_state with p | p | p | _
    · simp only [sslReadLoop, hc]; exact h
    · cases ev with
      | pkt p2 rt rs =>
        simp only [sslReadLoop, hc]
        split
        · rename_i c' heq
          apply ih
          have h2 := phaseInv_processChunks p2 now rt rs sd p2.chunks c h
          rw [show processChunks p2 now rt rs sd c p2.chunks
              = receiveSctpPacket c p2 now rt rs sd from rfl, heq] at h2
          exact h2
        · rename_i c' e heq
          have h2 := phaseInv_processChunks p2 now rt rs sd p2.chunks c h
          rw [show processChunks p2 now rt rs sd c p2.chunks
              = receiveSctpPacket c p2 now rt rs sd from rfl, heq] at h2
          exact h2
      | parseErr =>
        simp only [sslReadLoop, hc]
        exact ih c h
      | wantRead => simp only [sslReadLoop, hc]; exact h
      | zeroReturn =>
        simp only [sslReadLoop, hc]
        split
        · rename_i c' heq
          apply ih
          have h2 := phaseInv_startShutdown c now sd h
          rw [heq] at h2
          exact h2
        · rename_i c' e heq
          have h2 := phaseInv_startShutdown c now sd h
          rw [heq] at h2
          exact h2
      | tlsErr => simp only [sslReadLoop, hc]; exact h
    · simp only [sslReadLoop, hc]; exact h
    · simp only [sslReadLoop, hc]; exact h

theorem phaseInv_receiveIncoming (c : Client) (d : List Nat) (now : Nat)
    (hs : HandshakeOutcome) (reads : List ReadEvent) (sd : TlsShutdownOutcome)
    (h : PhaseInv c) : PhaseInv (receiveIncoming c d now hs reads sd).1 := by
  rcases hc : c.ssl_state with p | p | p | _
  · have hsctp : c.sctp_state = SctpState.Shutdown := h (by rw [sslIsEstablished, hc])
    cases hs with
    | ok pkts =>
      simp only [receiveIncoming, hc]
      exact phaseInv_sslReadLoop now sd reads _ (phaseInv_est _ pkts (by simp))
    | setupFailure =>
      simp only [receiveIncoming, hc]
      intro _
      simpa using hsctp
    | failure pkts =>
      simp only [receiveIncoming, hc]
      apply phaseInv_sslReadLoop
      intro _
      simpa using hsctp
    | wouldBlock pkts =>
      simp only [receiveIncoming, hc]
      apply phaseInv_sslReadLoop
      intro _
      simpa using hsctp
  · simp only [receiveIncoming, hc]
    exact phaseInv_sslReadLoop now sd reads _
      (phaseInv_est _ ⟨p.incoming_udp ++ [d], p.outgoing_udp⟩ rfl)
  · have hsctp : c.sctp_state = SctpState.Shutdown := h (by rw [sslIsEstablished, hc])
    cases sd <;> simp only [receiveIncoming, hc]
    · apply phaseInv_sslReadLoop
      intro _
      simpa using hsctp
    · apply phaseInv_sslReadLoop
      intro _
      simpa using hsctp
    · apply phaseInv_sslReadLoop
      intro _
      simpa using hsctp
    · intro _
      simpa using hsctp
  · simp only [receiveIncoming, hc]
    exact h

theorem phaseInv_applyOp (c : Client) (op : ClientOp) (h : PhaseInv c) :
    PhaseInv (applyOp c op) := by
  cases op with
  | recvIncoming d now hs reads sd => exact phaseInv_receiveIncoming c d now hs reads sd h
  | takeOutgoing =>
    refine phaseInv_of_eq c _ h ?_ ?_ <;>
      rcases hc : c.ssl_state with p | p | p | _ <;>
      simp [applyOp, takeOutgoingPackets, hc, sslIsEstablished]
  | sendMsg mt m =>
    exact phaseInv_of_eq c _ h
      (sslIsEstablished_congr _ _ (sendMessage_phase_eq c mt m).1)
      (sendMessage_phase_eq c mt m).2
  | genPeriodic now =>
    exact phaseInv_of_eq c _ h
      (sslIsEstablished_congr _ _ (generatePeriodic_phase_eq c now).1)
      (generatePeriodic_phase_eq c now).2
  | startSd now sd => exact phaseInv_startShutdown c now sd h
  | recvMsgs =>
    exact phaseInv_of_eq c _ h
      (sslIsEstablished_congr _ _ (by simp [applyOp, receiveMessages]))
      (by simp [applyOp, receiveMessages])

theorem phaseInv_applyOps (c : Client) (ops : List ClientOp) (h : PhaseInv c) :
    PhaseInv (applyOps c ops) := by
  induction ops generalizing c with
  | nil => exact h
  | cons op ops ih => exact ih _ (phaseInv_applyOp c op h)

theorem isEstablished_iff (c : Client) :
    isEstablished c = true ↔
      sslIsEstablished c = true ∧ c.sctp_state = SctpState.Established := by
  rcases hc : c.ssl_state with p | p | p | _ <;> rcases hs : c.sctp_state <;>
    simp [isEstablished, sslIsEstablished, hc, hs]

/-- C5: in every state reachable through the public entry points (error
returns included), a non-`Established` DTLS phase forces the SCTP phase to
be `Shutdown`; and `is_established()` holds exactly when both the DTLS and
the SCTP phase are `Established`. -/
theorem claim_C5_phase_invariant (c : Client) (h : Reachable c) :
    (sslIsEstablished c = false → c.sctp_state = SctpState.Shutdown) ∧
    (isEstablished c = true ↔
      sslIsEstablished c = true ∧ c.sctp_state = SctpState.Established) := by
  refine ⟨?_, isEstablished_iff c⟩
  obtain ⟨now, ops, rfl⟩ := h
  exact phaseInv_applyOps _ ops (phaseInv_newClient now)

theorem claim_C5_phase_invariant_witness :
    (sslIsEstablished (newClient 0) = false →
      (newClient 0).sctp_state = SctpState.Shutdown) ∧
    (isEstablished (newClient 0) = true ↔
      sslIsEstablished (newClient 0) = true ∧
      (newClient 0).sctp_state = SctpState.Established) :=
  claim_C5_phase_invariant (newClient 0) ⟨0, [], rfl⟩

/-! ## The ShuttingDown/Shutdown phases are absorbing -/

theorem sslClosing_congr (c d : Client) (h : d.ssl_state = c.ssl_state) :
    sslClosing d = sslClosing c := by
  rw [sslClosing, sslClosing, h]

theorem closing_receiveIncoming (c : Client) (d : List Nat) (now : Nat)
    (hs : HandshakeOutcome) (reads : List ReadEvent) (sd : TlsShutdownOutcome)
    (h : sslClosing c = true) :
    sslClosing (receiveIncoming c d now hs reads sd).1 = true := by
  rcases hc : c.ssl_state with p | p | p | _
  · rw [sslClosing, hc] at h; cases h
  · rw [sslClosing, hc] at h; cases h
  · cases sd with
    | sent =>
      simp only [receiveIncoming, hc]
      rw [sslReadLoop_not_est now TlsShutdownOutcome.sent reads _
        (by simp [sslIsEstablished])]
      simp [sslClosing]
    | received =>
      simp only [receiveIncoming, hc]
      rw [sslReadLoop_not_est now TlsShutdownOutcome.received reads _
        (by simp [sslIsEstablished])]
      simp [sslClosing]
    | wantRead =>
      simp only [receiveIncoming, hc]
      rw [sslReadLoop_not_est now TlsShutdownOutcome.wantRead reads _
        (by simp [sslIsEstablished])]
      simp [sslClosing]
    | tlsErr =>
      simp only [receiveIncoming, hc]
      simp [sslClosing]
  · simp only [receiveIncoming, hc]
    exact h

theorem closing_applyOp (c : Client) (op : ClientOp)
    (h : sslClosing c = true) : sslClosing (applyOp c op) = true := by
  cases op with
  | recvIncoming d now hs reads sd => exact closing_receiveIncoming c d now hs reads sd h
  | takeOutgoing =>
    rcases hc : c.ssl_state with p | p | p | _
    · simp [sslClosing, hc] at h
    · simp [sslClosing, hc] at h
    · simp [applyOp, takeOutgoingPackets, hc, sslClosing]
    · simp [applyOp, takeOutgoingPackets, hc, sslClosing]
  | sendMsg mt m =>
    rw [applyOp, sslClosing_congr c _ (sendMessage_phase_eq c mt m).1]
    exact h
  | genPeriodic now =>
    rw [applyOp, sslClosing_congr c _ (generatePeriodic_phase_eq c now).1]
    exact h
  | startSd now sd =>
    have hne : sslIsEstablished c = false := by
      rcases hc : c.ssl_state with p | p | p | _
      · simp [sslClosing, hc] at h
      · simp [sslClosing, hc] at h
      · rw [sslIsEstablished, hc]
      · rw [sslIsEstablished, hc]
    rw [applyOp, startShutdown_not_est c now sd hne]
    exact h
  | recvMsgs =>
    rw [applyOp, sslClosing_congr c _ (by simp [receiveMessages])]
    exact h

theorem closing_applyOps (c : Client) (ops : List ClientOp)
    (h : sslClosing c = true) : sslClosing (applyOps c ops) = true := by
  induction ops generalizing c with
  | nil => exact h
  | cons op ops ih => exact ih _ (closing_applyOp c op h)

theorem sendMessage_closing_err (c : Client) (mt : MessageType) (m : List Nat)
    (h : sslClosing c = true) :
    sendMessage c mt m = (c, some ClientError.NotConnected) := by
  rcases hc : c.ssl_state with p | p | p | _
  · rw [sslClosing, hc] at h; cases h
  · rw [sslClosing, hc] at h; cases h
  · simp [sendMessage, hc]
  · simp [sendMessage, hc]

/-- C4: `send_message` fails `NotConnected` whenever DTLS is not
`Established`, fails `NotEstablished` whenever DTLS is `Established` but
SCTP is not; every error path leaves `sctp_local_tsn` unchanged; and after
any `start_shutdown()` on an `Established` client, `send_message` returns
an error for all arguments, whatever other operations run in between. -/
theorem claim_C4_send_message_errors (c : Client) (mt : MessageType)
    (m : List Nat) :
    (sslIsEstablished c = false →
      sendMessage c mt m = (c, some ClientError.NotConnected)) ∧
    (sslIsEstablished c = true → c.sctp_state ≠ SctpState.Established →
      sendMessage c mt m = (c, some ClientError.NotEstablished)) ∧
    (∀ c' e, sendMessage c mt m = (c', some e) →
      c'.sctp_local_tsn = c.sctp_local_tsn) ∧
    (∀ pkts now sd ops, c.ssl_state = ClientSslState.Established pkts →
      ((sendMessage (applyOps (startShutdown c now sd).1 ops) mt m).2).isSome
        = true) := by
  refine ⟨?_, ?_, ?_, ?_⟩
  · intro hne
    rcases hc : c.ssl_state with p | p | p | _
    · simp [sendMessage, hc]
    · rw [sslIsEstablished, hc] at hne; cases hne
    · simp [sendMessage, hc]
    · simp [sendMessage, hc]
  · intro he hs
    rcases hc : c.ssl_state with p | p | p | _
    · rw [sslIsEstablished, hc] at he; cases he
    · simp [sendMessage, hc, hs]
    · rw [sslIsEstablished, hc] at he; cases he
    · rw [sslIsEstablished, hc] at he; cases he
  · intro c' e h
    rcases hc : c.ssl_state with p | p | p | _
    · rw [show sendMessage c mt m = (c, some ClientError.NotConnected) by
        simp [sendMessage, hc]] at h
      obtain ⟨rfl, -⟩ := Prod.mk.injEq .. |>.mp h
      rfl
    · by_cases hs : c.sctp_state = SctpState.Established
      · simp only [sendMessage, hc, hs, ne_eq, not_true_eq_false, if_false,
          ite_false, reduceIte] at h
        split at h
        · simp only [Prod.mk.injEq] at h
          obtain ⟨rfl, -⟩ := h
          rfl
        · simp only [Prod.mk.injEq] at h
          cases h.2
      · rw [show sendMessage c mt m = (c, some ClientError.NotEstablished) by
          simp [sendMessage, hc, hs]] at h
        obtain ⟨rfl, -⟩ := Prod.mk.injEq .. |>.mp h
        rfl
    · rw [show sendMessage c mt m = (c, some ClientError.NotConnected) by
        simp [sendMessage, hc]] at h
      obtain ⟨rfl, -⟩ := Prod.mk.injEq .. |>.mp h
      rfl
    · rw [show sendMessage c mt m = (c, some ClientError.NotConnected) by
        simp [sendMessage, hc]] at h
      obtain ⟨rfl, -⟩ := Prod.mk.injEq .. |>.mp h
      rfl
  · intro pkts now sd ops hssl
    have hcl := closing_applyOps (startShutdown c now sd).1 ops
      (startShutdown_from_est c pkts now sd hssl).1
    rw [sendMessage_closing_err _ mt m hcl]
    rfl

theorem claim_C4_send_message_errors_witness :
    ((sendMessage (applyOps (startShutdown cEst 0 TlsShutdownOutcome.sent).1
      [ClientOp.genPeriodic 9000]) MessageType.Text [104]).2).isSome = true :=
  (claim_C4_send_message_errors cEst MessageType.Text [104]).2.2.2
    ⟨[], []⟩ 0 TlsShutdownOutcome.sent [ClientOp.genPeriodic 9000] rfl
